import Mathlib

/-!
Shallow embedding of the QuackMesh mesh message engine
(QuackMeshDevice.cpp, QuackMeshRouter.cpp, ESPNowClient.cpp,
QuackMeshTypes.h) and proofs about the claims of its specification.

Machine integers are modelled as `Nat` (unsigned types, reduced mod 2^w
exactly where the C++ arithmetic wraps) and `Int` (signed types, with an
explicit two's-complement truncation `toInt16` for `int16_t`).
6-byte MAC addresses are byte lists; `memcmp == 0` is bytewise equality.
-/

namespace QuackMesh

/-- A 6-byte MAC address, modelled as its list of bytes. -/
abbrev Addr := List Nat

/-- QuackMeshESPNow::isAddressMatching: memcmp of the 6 bytes equals 0,
i.e. bytewise equality. -/
def isAddressMatching (actualAddress expectedAddress : Addr) : Bool :=
  decide (actualAddress = expectedAddress)

/-- ESPNowClient::BROADCAST_ADDRESS = {0xff,0xff,0xff,0xff,0xff,0xff}. -/
def BROADCAST_ADDRESS : Addr := [255, 255, 255, 255, 255, 255]

/-- `u_long` is a 32-bit unsigned integer on the ESP8266/ESP32 targets. -/
def ULONG_MOD : Nat := 2 ^ 32

/-- Truncation of an integer to `int16_t` (two's complement, 16 bits),
as performed by `static_cast<int16_t>` / assignment back into an
`int16_t` field. -/
def toInt16 (n : Int) : Int := ((n + 32768) % 65536) - 32768

/-- `millis() - ts` evaluated in `u_long`: subtraction modulo 2^32. -/
def millisDiff (now ts : Nat) : Nat :=
  (now % ULONG_MOD + (ULONG_MOD - ts % ULONG_MOD)) % ULONG_MOD

/-- QuackMeshTypes::Message (the 18-byte frame header plus payload).
`data` holds the `len` payload bytes. -/
structure Message where
  networkID : Nat × Nat
  type : Nat
  id : Nat
  hopCount : Nat
  srcAddress : Addr
  destAddress : Addr
  len : Nat
  data : List Nat
deriving Repr, DecidableEq

/-- QuackMeshTypes::EnqueuedMessageType. -/
inductive EnqueuedMessageType where
  | Unconfirmed
  | Confirmed
  | Forwarded
  | Acknowledgement
deriving Repr, DecidableEq

/-- QuackMeshTypes::EnqueuedMessage. -/
structure EnqueuedMessage where
  type : EnqueuedMessageType
  channel : Int
  message : Message
deriving Repr, DecidableEq

/-- QuackMeshTypes::ConfirmedMessage (a pending confirmation).
`timestamp` is an `int16_t`. -/
structure ConfirmedMessage where
  isSent : Bool
  timestamp : Int
  id : Nat
  destAddress : Addr
deriving Repr, DecidableEq

/-- QuackMeshTypes::SeenMessageEntry. `timestamp` is an (unsigned!)
`u_long`, so it is a `Nat` reduced mod 2^32. -/
structure SeenMessageEntry where
  id : Nat
  srcAddress : Addr
  destAddress : Addr
  timestamp : Nat
  type : EnqueuedMessageType
deriving Repr, DecidableEq

/-- QuackMeshTypes::RoutingEntry. `timestamp` is an `int16_t`. -/
structure RoutingEntry where
  destination : Addr
  link : Addr
  hops : Nat
  timestamp : Int
deriving Repr, DecidableEq

/-- QuackMeshRouter::mRoutingTableUpdateTimeout (10000 ms). -/
def mRoutingTableUpdateTimeout : Int := 10000

/-- QuackMeshRouter::mMaxRoutingEntries (10). -/
def mMaxRoutingEntries : Nat := 10

/-- QuackMeshRouter::mRoutingTableUpdateInterval (100 ms). -/
def mRoutingTableUpdateInterval : Nat := 100

/-- The scan loop of QuackMeshRouter::addOrUpdateRoutingInfo: walk the
table in order; at the first entry whose destination matches and whose
`hops` is strictly greater than the new `hops`, update that entry's
hops, link and timestamp in place and stop (`return` in the source).
Returns `none` when no entry was updated (the loop ran to completion).
The source also tracks an `oldestEntry` iterator inside the matching
branch, but that iterator is never used afterwards (dead code), so it
does not appear here. -/
def updateFirstMatch (destination link : Addr) (hops : Nat) :
    List RoutingEntry → Option (List RoutingEntry)
  | [] => none
  | e :: rest =>
    if isAddressMatching e.destination destination && decide (hops < e.hops) then
      some ({ e with hops := hops,
                     timestamp := mRoutingTableUpdateTimeout,
                     link := link } :: rest)
    else
      (updateFirstMatch destination link hops rest).map (e :: ·)

/-- QuackMeshRouter::addOrUpdateRoutingInfo. After the scan loop, the
source unconditionally constructs a new entry (timestamp
`static_cast<int16_t>(mRoutingTableUpdateTimeout)` = 10000, which is in
`int16_t` range) and `push_back`s it; there is no capacity check and no
eviction, despite the comment in the source announcing one. -/
def addOrUpdateRoutingInfo (destination link : Addr) (hops : Nat)
    (table : List RoutingEntry) : List RoutingEntry :=
  match updateFirstMatch destination link hops table with
  | some t => t
  | none => table ++ [⟨destination, link, hops, mRoutingTableUpdateTimeout⟩]

/-- QuackMeshRouter::getMACAddressForDestination: first matching entry's
link, else the broadcast address. -/
def getMACAddressForDestination (destination : Addr) :
    List RoutingEntry → Addr
  | [] => BROADCAST_ADDRESS
  | e :: rest =>
    if isAddressMatching destination e.destination then e.link
    else getMACAddressForDestination destination rest

/-- One aging pass of QuackMeshRouter::updateRoutingTable (the body that
runs when at least `mRoutingTableUpdateInterval` ms have elapsed):
`timestamp -= diff` (the `int16_t` entry minus the `u_long` diff,
truncated back to `int16_t`), erasing entries at `<= 0`. -/
def updateRoutingTableList (diff : Nat) (table : List RoutingEntry) :
    List RoutingEntry :=
  (table.map (fun e => { e with timestamp := toInt16 (e.timestamp - (diff : Int)) })).filter
    (fun e => !decide (e.timestamp ≤ 0))

/-- Helper: a sequence of eleven pairwise distinct destinations. -/
def destAddrOf (i : Nat) : Addr := [i, 0, 0, 0, 0, 0]

/-- A fixed next-hop link address used in concrete routing scenarios. -/
def linkA : Addr := [1, 2, 3, 4, 5, 6]

/-- The routing table obtained from the empty table by inserting eleven
routes for pairwise distinct destinations. -/
def tableEleven : List RoutingEntry :=
  (List.range 11).foldl
    (fun t i => addOrUpdateRoutingInfo (destAddrOf i) linkA 3 t) []

/-- Claim C1: the claim states that the routing table never exceeds
`max_routing` (10) entries because `addOrUpdateRoutingInfo`, called at
capacity with no matching destination, evicts the smallest-remaining
entry before inserting. The code contradicts its own comment ("If the
routing table is full and we didn't find an entry to update remove the
oldest entry"): it never evicts, so eleven inserts of distinct
destinations grow the table to eleven entries, past the cap of ten. -/
theorem C1_routing_table_exceeds_cap :
    tableEleven.length = 11 ∧ mMaxRoutingEntries < tableEleven.length := by
  constructor
  · rfl
  · decide

/-- A concrete one-entry routing table: destination `destAddrOf 0`
reachable via `linkA` in 1 hop. -/
def tableOne : List RoutingEntry :=
  [⟨destAddrOf 0, linkA, 1, mRoutingTableUpdateTimeout⟩]

/-- Claim C2, counterexample: the claim states that when an entry for
the destination already exists with `hops ≤` the new hops, the routing
table is kept unchanged (no new entry inserted). On a table holding
`destAddrOf 0` at 1 hop, a call with the same destination and 2 hops
appends a second entry for that destination instead of leaving the
table unchanged. -/
theorem C2_worse_route_appends_duplicate :
    addOrUpdateRoutingInfo (destAddrOf 0) linkA 2 tableOne =
      [⟨destAddrOf 0, linkA, 1, mRoutingTableUpdateTimeout⟩,
       ⟨destAddrOf 0, linkA, 2, mRoutingTableUpdateTimeout⟩] ∧
    addOrUpdateRoutingInfo (destAddrOf 0) linkA 2 tableOne ≠ tableOne := by
  constructor
  · rfl
  · decide

/-- When every entry matching the destination has `hops ≤` the new
hops, the scan loop of `addOrUpdateRoutingInfo` updates nothing. -/
theorem updateFirstMatch_none_of_no_better (destination link : Addr)
    (hops : Nat) (table : List RoutingEntry)
    (h : ∀ e ∈ table, isAddressMatching e.destination destination = true →
      e.hops ≤ hops) :
    updateFirstMatch destination link hops table = none := by
  induction table with
  | nil => rfl
  | cons e rest ih =>
    have he := h e (List.mem_cons_self e rest)
    have hrest : ∀ x ∈ rest,
        isAddressMatching x.destination destination = true → x.hops ≤ hops :=
      fun x hx => h x (List.mem_cons_of_mem e hx)
    unfold updateFirstMatch
    have hcond : (isAddressMatching e.destination destination
        && decide (hops < e.hops)) = false := by
      by_cases hm : isAddressMatching e.destination destination = true
      · have := he hm
        simp [hm, this, Nat.not_lt.mpr this]
      · simp [Bool.eq_false_iff.mpr hm]
    rw [hcond]
    simp [ih hrest]

/-- Claim C2, amended: when every entry for the destination already has
`hops ≤` the new hops, the existing entries are left unmodified but a
new entry with the new (not better) hop count is appended at the end of
the table. -/
theorem C2_amended_keep_and_append (destination link : Addr) (hops : Nat)
    (table : List RoutingEntry)
    (h : ∀ e ∈ table, isAddressMatching e.destination destination = true →
      e.hops ≤ hops) :
    addOrUpdateRoutingInfo destination link hops table =
      table ++ [⟨destination, link, hops, mRoutingTableUpdateTimeout⟩] := by
  unfold addOrUpdateRoutingInfo
  rw [updateFirstMatch_none_of_no_better destination link hops table h]

/-- Witness for the amended claim C2 at a concrete table. -/
theorem C2_amended_keep_and_append_witness :
    (∀ e ∈ tableOne, isAddressMatching e.destination (destAddrOf 0) = true →
      e.hops ≤ 2) ∧
    addOrUpdateRoutingInfo (destAddrOf 0) linkA 2 tableOne =
      tableOne ++ [⟨destAddrOf 0, linkA, 2, mRoutingTableUpdateTimeout⟩] :=
  ⟨by decide, C2_amended_keep_and_append (destAddrOf 0) linkA 2 tableOne
    (by decide)⟩

/-- QuackMeshDevice::mMaxSeenMessagesQueueSize (10). -/
def mMaxSeenMessagesQueueSize : Nat := 10

/-- QuackMeshDevice::mSeenMessagesCleanupInterval (1000 ms). -/
def mSeenMessagesCleanupInterval : Nat := 1000

/-- QuackMeshDevice::mSeenMessagesCleanupTimeout (2000 ms). -/
def mSeenMessagesCleanupTimeout : Nat := 2000

/-- The mapping from a frame's `type` byte to the seen-set kind, as
written identically in QuackMeshDevice::isMessageAlreadySeen and
QuackMeshDevice::rememberMessage. -/
def messageSeenType (t : Nat) : EnqueuedMessageType :=
  if t = 0 then EnqueuedMessageType.Unconfirmed
  else if t = 1 then EnqueuedMessageType.Confirmed
  else if t = 3 then EnqueuedMessageType.Acknowledgement
  else EnqueuedMessageType.Forwarded

/-- QuackMeshDevice::isMessageAlreadySeen: some entry with positive
timestamp matches the frame's `(id, src, dst, kind)`. -/
def isMessageAlreadySeen (seen : List SeenMessageEntry)
    (message : Message) : Bool :=
  seen.any fun e =>
    decide (0 < e.timestamp) && decide (e.id = message.id) &&
    isAddressMatching e.srcAddress message.srcAddress &&
    isAddressMatching e.destAddress message.destAddress &&
    decide (e.type = messageSeenType message.type)

/-- QuackMeshDevice::rememberMessage: if not already seen, build a seen
entry with timestamp `mSeenMessagesCleanupTimeout`; when the set is at
or over `mMaxSeenMessagesQueueSize`, erase the front entry; push the new
entry at the back. -/
def rememberMessage (seen : List SeenMessageEntry)
    (message : Message) : List SeenMessageEntry :=
  if isMessageAlreadySeen seen message then seen
  else
    let newSeenMessage : SeenMessageEntry :=
      ⟨message.id, message.srcAddress, message.destAddress,
        mSeenMessagesCleanupTimeout, messageSeenType message.type⟩
    (if mMaxSeenMessagesQueueSize ≤ seen.length then seen.drop 1 else seen)
      ++ [newSeenMessage]

/-- The aging loop of QuackMeshDevice::updateSeenMessages:
`it->timestamp -= diff` on the unsigned `u_long` timestamp (wrapping
subtraction mod 2^32) followed by erasure at `<= 0`, which for an
unsigned value holds exactly when the timestamp equals 0. -/
def updateSeenMessagesList (diff : Nat) (seen : List SeenMessageEntry) :
    List SeenMessageEntry :=
  (seen.map (fun e =>
      { e with timestamp := (e.timestamp + (ULONG_MOD - diff % ULONG_MOD)) % ULONG_MOD })).filter
    (fun e => !decide (e.timestamp = 0))

/-- QuackMeshDevice::updateSeenMessages with its rate gate: a no-op
unless at least `mSeenMessagesCleanupInterval` ms have elapsed since the
last cleanup; otherwise subtract the elapsed time from every entry and
drop the entries that reach exactly 0. Returns the new cleanup
timestamp and the new seen set. -/
def updateSeenMessages (now ts : Nat) (seen : List SeenMessageEntry) :
    Nat × List SeenMessageEntry :=
  if millisDiff now ts < mSeenMessagesCleanupInterval then (ts, seen)
  else (now, updateSeenMessagesList (millisDiff now ts) seen)

/-- A concrete seen entry whose remaining time is the full TTL. -/
def seenEntryFresh : SeenMessageEntry :=
  ⟨7, destAddrOf 1, destAddrOf 2, mSeenMessagesCleanupTimeout,
    EnqueuedMessageType.Unconfirmed⟩

/-- Claim C3: the claim states that, evaluating the unsigned arithmetic
mod 2^w, cleanup removes every entry whose remaining_ms is ≤ 0, so no
entry whose cumulative elapsed time reached seen_ttl (2000 ms) survives
a later cleanup. On the code, the `u_long` timestamp wraps: after
cleanups of 1001 ms and then 1000 ms (cumulative 2001 ≥ 2000, each past
the 1000 ms gate), the entry's timestamp is 2^32 − 1, the `<= 0` test
(which for an unsigned value only matches 0) fails, and the entry
survives. -/
theorem C3_expired_seen_entry_survives :
    (updateSeenMessages 2001 (updateSeenMessages 1001 0 [seenEntryFresh]).1
        (updateSeenMessages 1001 0 [seenEntryFresh]).2).2 =
      [⟨7, destAddrOf 1, destAddrOf 2, 2 ^ 32 - 1,
        EnqueuedMessageType.Unconfirmed⟩] := by
  decide

/-- QuackMeshESPNow::ESPNowSentStatus. -/
inductive ESPNowSentStatus where
  | Undetermined
  | SendSuccess
  | SendBroadcast
  | PartialFail
  | Fail
deriving Repr, DecidableEq

/-- The state of a QuackMeshDevice that the modelled operations touch:
the outbound queue, the pending-confirmation list, the seen set and the
sending-in-progress flag. -/
structure DeviceState where
  mMessageQueue : List EnqueuedMessage
  mMessagesLeftToConfirm : List ConfirmedMessage
  mSeenMessages : List SeenMessageEntry
  mMessageSendingInProgress : Bool
deriving Repr, DecidableEq

/-- QuackMeshDevice::checkForConfirmationTimeout applied with an elapsed
time `diff` (the `u_long` difference of `millis()` and the last check):
each entry's `int16_t` timestamp is decremented by `diff` (truncated
back into `int16_t`); an entry reaching `<= 0` is erased and, when the
status callback is set, the callback fires with `Fail`. Returns the
surviving entries and the fired statuses in source order. -/
def checkForConfirmationTimeout (statusCbSet : Bool) (diff : Nat) :
    List ConfirmedMessage → List ConfirmedMessage × List ESPNowSentStatus
  | [] => ([], [])
  | c :: rest =>
    let ts := toInt16 (c.timestamp - (diff : Int))
    let r := checkForConfirmationTimeout statusCbSet diff rest
    if ts ≤ 0 then
      (r.1, (if statusCbSet then [ESPNowSentStatus.Fail] else []) ++ r.2)
    else
      ({ c with timestamp := ts } :: r.1, r.2)

/-- QuackMeshDevice::processReceivedAcknowledgement: erase the first
pending confirmation matching the ack's `(id, src)`, fire `SendSuccess`
when the status callback is set, and stop at the first match. -/
def processReceivedAcknowledgement (statusCbSet : Bool) (message : Message) :
    List ConfirmedMessage → List ConfirmedMessage × List ESPNowSentStatus
  | [] => ([], [])
  | c :: rest =>
    if decide (c.id = message.id)
        && isAddressMatching c.destAddress message.srcAddress then
      (rest, if statusCbSet then [ESPNowSentStatus.SendSuccess] else [])
    else
      let r := processReceivedAcknowledgement statusCbSet message rest
      (c :: r.1, r.2)

/-- The erase loop inside QuackMeshDevice::onMessageSent: remove the
first pending confirmation matching `(id, dst)` (then `break`). -/
def erasePendingFor (id : Nat) (dst : Addr) :
    List ConfirmedMessage → List ConfirmedMessage
  | [] => []
  | c :: rest =>
    if decide (c.id = id) && isAddressMatching c.destAddress dst then rest
    else c :: erasePendingFor id dst rest

/-- QuackMeshDevice::onMessageSent. The source reads
`mMessageQueue.front()` (undefined on an empty queue; the model returns
the state unchanged there, a case no modelled trace reaches). For a
Confirmed front whose link status is `Fail`, erase the first matching
pending confirmation and invoke the status callback with the status —
unconditionally of whether a pending entry was found. Every other
status (including `SendBroadcast`) falls through. Finally the
in-progress flag is cleared and the front is popped. -/
def onMessageSent (statusCbSet : Bool) (status : ESPNowSentStatus)
    (s : DeviceState) : DeviceState × List ESPNowSentStatus :=
  match s.mMessageQueue with
  | [] => (s, [])
  | front :: restQ =>
    let r :=
      if front.type = EnqueuedMessageType.Confirmed
          ∧ status = ESPNowSentStatus.Fail then
        (erasePendingFor front.message.id front.message.destAddress
            s.mMessagesLeftToConfirm,
          if statusCbSet then [status] else [])
      else (s.mMessagesLeftToConfirm, [])
    ({ s with mMessageQueue := restQ,
              mMessagesLeftToConfirm := r.1,
              mMessageSendingInProgress := false }, r.2)

/-- QuackMeshDevice::sendAcknowledgement: enqueue an Acknowledgement
frame `{type=3, id=message.id, hop=3, src=local, dst=message.src,
len=0}` at the back of the outbound queue. -/
def sendAcknowledgement (localAddress : Addr) (message : Message)
    (queue : List EnqueuedMessage) : List EnqueuedMessage :=
  queue ++ [⟨EnqueuedMessageType.Acknowledgement, 0,
    ⟨(0, 0), 3, message.id, 3, localAddress, message.srcAddress, 0, []⟩⟩]

/-- One invocation of the message callback as seen by the application:
the arguments QuackMeshDevice passes to `mOnMessageCallback`. -/
structure MessageCallbackCall where
  type : Nat
  srcAddress : Addr
  data : List Nat
  len : Nat
deriving Repr, DecidableEq

/-- The externally visible effects of one QuackMeshDevice receive or
link event: the message-callback invocations actually delivered, a flag
recording an invocation of a null `std::function` (the unguarded
`mOnMessageCallback` call in the default branch of handleOwnMessage,
undefined behaviour in the source), and the fired status callbacks. -/
structure HandleOutputs where
  messageCallbacks : List MessageCallbackCall
  nullCallbackInvoked : Bool
  statuses : List ESPNowSentStatus
deriving Repr, DecidableEq

/-- QuackMeshDevice::handleOwnMessage: drop when already seen; remember;
then dispatch on the type byte. Types 0 and 1 guard the message
callback with a null check; type 1 additionally enqueues an ack before
delivering; type 3 resolves a pending confirmation; every other type
invokes the message callback without the null check. -/
def handleOwnMessage (localAddress : Addr)
    (messageCbSet statusCbSet : Bool) (message : Message)
    (s : DeviceState) : DeviceState × HandleOutputs :=
  if isMessageAlreadySeen s.mSeenMessages message then
    (s, ⟨[], false, []⟩)
  else
    let seen := rememberMessage s.mSeenMessages message
    if message.type = 0 then
      ({ s with mSeenMessages := seen },
        ⟨if messageCbSet then
            [⟨0, message.srcAddress, message.data, message.len⟩] else [],
          false, []⟩)
    else if message.type = 1 then
      ({ s with mSeenMessages := seen,
                mMessageQueue :=
                  sendAcknowledgement localAddress message s.mMessageQueue },
        ⟨if messageCbSet then
            [⟨1, message.srcAddress, message.data, message.len⟩] else [],
          false, []⟩)
    else if message.type = 3 then
      let r := processReceivedAcknowledgement statusCbSet message
        s.mMessagesLeftToConfirm
      ({ s with mSeenMessages := seen, mMessagesLeftToConfirm := r.1 },
        ⟨[], false, r.2⟩)
    else
      ({ s with mSeenMessages := seen },
        ⟨if messageCbSet then
            [⟨message.type, message.srcAddress, message.data, message.len⟩]
          else [],
          !messageCbSet, []⟩)

/-- QuackMeshDevice::processNextMessage, parameterized by the link
adapter's acceptance: `clientSendResult` is the value `mClient.send`
returns (0 = accepted). On acceptance of a Confirmed front, a pending
confirmation `{isSent=true, timestamp=1000, id, dst}` is appended and
the in-progress flag set; on rejection the front is popped with the
flag cleared. (The guard `!mClient.sendingPossible()` and an empty or
already-in-progress queue leave the state unchanged.) -/
def processNextMessage (clientSendResult : Int) (s : DeviceState) :
    DeviceState :=
  if s.mMessageSendingInProgress then s
  else
    match s.mMessageQueue with
    | [] => s
    | next :: restQ =>
      if clientSendResult = 0 then
        { s with
            mMessageSendingInProgress := true,
            mMessagesLeftToConfirm :=
              if next.type = EnqueuedMessageType.Confirmed then
                s.mMessagesLeftToConfirm ++
                  [⟨true, 1000, next.message.id, next.message.destAddress⟩]
              else s.mMessagesLeftToConfirm }
      else
        { s with mMessageQueue := restQ, mMessageSendingInProgress := false }

/-- QuackMeshESPNow::SendingData (the staged outbound frame). -/
structure SendingData where
  destAddress : Addr
  data : List Nat
  dataLength : Nat
  maxTriesLeft : Nat
  channel : Int
deriving Repr, DecidableEq

/-- The ESPNowClient state the modelled operations touch: the three
static flags, the last driver status, the staged frame and whether a
sent-callback is registered. -/
structure ClientState where
  WAITING_FOR_DATA_SENT_MUTEX : Bool
  DATA_SENT_UPDATE_MUTEX : Bool
  LAST_SENT_STATUS : ESPNowSentStatus
  mNextDataToSend : Option SendingData
  sentCallbackSet : Bool
deriving Repr, DecidableEq

/-- ESPNowClient::send: refuse with -1 while
`WAITING_FOR_DATA_SENT_MUTEX` is set; otherwise overwrite the staged
frame (`mNextDataToSend = make_optional(...)`) and return 0. -/
def ESPNowClient.send (s : ClientState) (macAddress : Addr)
    (data : List Nat) (dataLength : Nat) (maxSendTries : Nat)
    (channel : Int) : ClientState × Int :=
  if s.WAITING_FOR_DATA_SENT_MUTEX then (s, -1)
  else
    let newDataToSend : SendingData :=
      ⟨macAddress, data, dataLength, maxSendTries, channel⟩
    ({ s with mNextDataToSend := some newDataToSend }, 0)

/-- ESPNowClient::sendingPossible: true iff
`WAITING_FOR_DATA_SENT_MUTEX` is clear. -/
def ESPNowClient.sendingPossible (s : ClientState) : Bool :=
  !s.WAITING_FOR_DATA_SENT_MUTEX

/-- ESPNowClient::sendNow, parameterized by the driver's return code:
on driver acceptance (status 0) set `WAITING_FOR_DATA_SENT_MUTEX`; on a
driver error record a terminal `Fail` with the update flag set. -/
def ESPNowClient.sendNow (driverStatus : Int) (s : ClientState) :
    ClientState × Int :=
  if s.WAITING_FOR_DATA_SENT_MUTEX then (s, -1)
  else if driverStatus = 0 then
    ({ s with WAITING_FOR_DATA_SENT_MUTEX := true }, driverStatus)
  else
    ({ s with DATA_SENT_UPDATE_MUTEX := true,
              LAST_SENT_STATUS := ESPNowSentStatus.Fail,
              WAITING_FOR_DATA_SENT_MUTEX := false }, driverStatus)

/-- The promotion performed at the top of the send-status block of
ESPNowClient::update: a `PartialFail` with no tries left becomes
`Fail`. -/
def ESPNowClient.terminalStatus (last : ESPNowSentStatus)
    (d : SendingData) : ESPNowSentStatus :=
  if last = ESPNowSentStatus.PartialFail ∧ d.maxTriesLeft = 0 then
    ESPNowSentStatus.Fail
  else last

/-- The send-status reconciliation block of ESPNowClient::update (the
`DATA_SENT_UPDATE_MUTEX` branch). On a terminal status (`Fail` or
`SendSuccess`), if the sent-callback is set, the status is first
remapped to `SendBroadcast` whenever the staged frame's destination is
the broadcast address — for both terminal statuses — and then
delivered; the staged frame is dropped and the waiting flag cleared.
A non-terminal `PartialFail` only clears the update flag (retry).
The source dereferences `mNextDataToSend.value()` here, so the `none`
case (which would throw) is modelled as a no-op; no modelled trace
reaches it. -/
def ESPNowClient.processSentUpdate (s : ClientState) :
    ClientState × List ESPNowSentStatus :=
  if !s.DATA_SENT_UPDATE_MUTEX then (s, [])
  else
    match s.mNextDataToSend with
    | none => (s, [])
    | some d =>
      let st1 := ESPNowClient.terminalStatus s.LAST_SENT_STATUS d
      if st1 = ESPNowSentStatus.Fail ∨ st1 = ESPNowSentStatus.SendSuccess then
        let r : List ESPNowSentStatus :=
          if s.sentCallbackSet then
            [if isAddressMatching d.destAddress BROADCAST_ADDRESS then
                ESPNowSentStatus.SendBroadcast
              else st1]
          else []
        ({ s with mNextDataToSend := none,
                  WAITING_FOR_DATA_SENT_MUTEX := false,
                  DATA_SENT_UPDATE_MUTEX := false,
                  LAST_SENT_STATUS := ESPNowSentStatus.Undetermined }, r)
      else
        ({ s with DATA_SENT_UPDATE_MUTEX := false,
                  LAST_SENT_STATUS := ESPNowSentStatus.Undetermined }, [])

/-- QuackMeshRouter::forwardMessage: drop when `hop_count - 1 == 0`
(evaluated after integer promotion, so a received hop count of 0 is NOT
dropped); drop duplicates; remember; enqueue a copy whose hop count is
the `uint8_t` truncation of `hop_count - 1`. -/
def forwardMessage (s : DeviceState) (message : Message) : DeviceState :=
  if (message.hopCount : Int) - 1 = 0 then s
  else if isMessageAlreadySeen s.mSeenMessages message then s
  else
    { s with
        mSeenMessages := rememberMessage s.mSeenMessages message,
        mMessageQueue := s.mMessageQueue ++
          [⟨EnqueuedMessageType.Forwarded, 0,
            ⟨(0, 0), message.type, message.id,
              (message.hopCount + 255) % 256,
              message.srcAddress, message.destAddress,
              message.len, message.data⟩⟩] }

/-- `toInt16` is the identity on the `int16_t` range. -/
theorem toInt16_of_mem_range (n : Int) (h1 : -32768 ≤ n) (h2 : n < 32768) :
    toInt16 n = n := by
  unfold toInt16
  omega

/-- The MAC address of the sender node used in concrete scenarios. -/
def senderAddr : Addr := [10, 0, 0, 0, 0, 1]

/-- The MAC address of the receiver node used in concrete scenarios. -/
def receiverAddr : Addr := [11, 0, 0, 0, 0, 2]

/-- A Confirmed frame (id 5) addressed to the broadcast address. -/
def broadcastConfirmedMsg : Message :=
  ⟨(0, 0), 1, 5, 3, senderAddr, BROADCAST_ADDRESS, 0, []⟩

/-- The sender device right after enqueueing the broadcast Confirmed
frame: it is at the head of the outbound queue, nothing pending. -/
def broadcastSendState : DeviceState :=
  ⟨[⟨EnqueuedMessageType.Confirmed, 0, broadcastConfirmedMsg⟩], [], [], false⟩

/-- Claim C4, counterexample: submit the broadcast Confirmed frame to
the link (accepted, creating the pending confirmation), receive the
link outcome `SendBroadcast`, then run the confirmation-timeout check
1000 ms later with no ack ever received. The status callbacks fired
over the whole trace are exactly `[Fail]`: the callback never fires
with `SendBroadcast`, and the pending confirmation left in place by the
Broadcast outcome does produce a `Fail` at the confirmation timeout —
contradicting the claim on both counts. -/
theorem C4_broadcast_confirmed_fires_fail :
    (onMessageSent true ESPNowSentStatus.SendBroadcast
        (processNextMessage 0 broadcastSendState)).2 ++
      (checkForConfirmationTimeout true 1000
        (onMessageSent true ESPNowSentStatus.SendBroadcast
          (processNextMessage 0 broadcastSendState)).1.mMessagesLeftToConfirm).2 =
      [ESPNowSentStatus.Fail] := by
  decide

/-- Claim C4, amended: for a Confirmed send addressed to the broadcast
address for which no matching acknowledgement ever arrives, the status
callback never fires with `SendBroadcast` (the link outcome
`SendBroadcast` is dropped by onMessageSent), the pending confirmation
is left in place, and the first confirmation-timeout check whose
elapsed time reaches the remaining 1000 ms fires the status callback
with `Fail`. -/
theorem C4_amended_broadcast_times_out_as_fail
    (s : DeviceState) (em : EnqueuedMessage) (restQ : List EnqueuedMessage)
    (id : Nat) (dst : Addr) (diff : Nat)
    (hq : s.mMessageQueue = em :: restQ)
    (hp : s.mMessagesLeftToConfirm = [⟨true, 1000, id, dst⟩])
    (h1 : 1000 ≤ diff) (h2 : diff ≤ 33768) :
    (onMessageSent true ESPNowSentStatus.SendBroadcast s).2 = [] ∧
    (onMessageSent true
        ESPNowSentStatus.SendBroadcast s).1.mMessagesLeftToConfirm =
      [⟨true, 1000, id, dst⟩] ∧
    (checkForConfirmationTimeout true diff
        (onMessageSent true
          ESPNowSentStatus.SendBroadcast s).1.mMessagesLeftToConfirm).2 =
      [ESPNowSentStatus.Fail] := by
  have houts : (onMessageSent true ESPNowSentStatus.SendBroadcast s).2 = [] := by
    simp [onMessageSent, hq]
  have hpend : (onMessageSent true
      ESPNowSentStatus.SendBroadcast s).1.mMessagesLeftToConfirm =
      [⟨true, 1000, id, dst⟩] := by
    simp [onMessageSent, hq, hp]
  refine ⟨houts, hpend, ?_⟩
  rw [hpend]
  have hts : toInt16 ((1000 : Int) - (diff : Int)) ≤ 0 := by
    unfold toInt16
    omega
  simp [checkForConfirmationTimeout, hts]

/-- Witness for the amended claim C4 at the state reached by the
concrete broadcast send, with a 1000 ms timeout check. -/
theorem C4_amended_broadcast_times_out_as_fail_witness :
    ((onMessageSent true ESPNowSentStatus.SendBroadcast
        (processNextMessage 0 broadcastSendState)).1.mMessagesLeftToConfirm ≠ [] ∧
      1000 ≤ 1000 ∧ (1000 : Nat) ≤ 33768) ∧
    ((onMessageSent true ESPNowSentStatus.SendBroadcast
        (processNextMessage 0 broadcastSendState)).2 = [] ∧
      (onMessageSent true ESPNowSentStatus.SendBroadcast
        (processNextMessage 0 broadcastSendState)).1.mMessagesLeftToConfirm =
        [⟨true, 1000, 5, BROADCAST_ADDRESS⟩] ∧
      (checkForConfirmationTimeout true 1000
        (onMessageSent true ESPNowSentStatus.SendBroadcast
          (processNextMessage 0 broadcastSendState)).1.mMessagesLeftToConfirm).2 =
        [ESPNowSentStatus.Fail]) :=
  ⟨by decide,
    C4_amended_broadcast_times_out_as_fail
      (processNextMessage 0 broadcastSendState)
      ⟨EnqueuedMessageType.Confirmed, 0, broadcastConfirmedMsg⟩ []
      5 BROADCAST_ADDRESS 1000 (by decide) (by decide) (by decide) (by decide)⟩

/-- A Confirmed frame (id 5) from the sender to the receiver. -/
def directConfirmedMsg : Message :=
  ⟨(0, 0), 1, 5, 3, senderAddr, receiverAddr, 1, [7]⟩

/-- The sender device right after enqueueing `directConfirmedMsg`. -/
def directSendState : DeviceState :=
  ⟨[⟨EnqueuedMessageType.Confirmed, 0, directConfirmedMsg⟩], [], [], false⟩

/-- Claim C8, counterexample: submit the Confirmed frame (accepted,
pending confirmation created with 1000 ms remaining). The link's
sent-status is delayed past the confirmation timeout: the timeout check
at 1000 ms fires `Fail` and erases the pending entry; the link-level
`Fail` then arrives while the same frame is still at the queue head,
and onMessageSent fires the status callback again — two `Fail`
callbacks for the same (id 5, receiver) send. -/
theorem C8_status_callback_fires_twice :
    (checkForConfirmationTimeout true 1000
        (processNextMessage 0 directSendState).mMessagesLeftToConfirm).2 ++
      (onMessageSent true ESPNowSentStatus.Fail
        { processNextMessage 0 directSendState with
            mMessagesLeftToConfirm :=
              (checkForConfirmationTimeout true 1000
                (processNextMessage 0 directSendState).mMessagesLeftToConfirm).1 }).2 =
      [ESPNowSentStatus.Fail, ESPNowSentStatus.Fail] := by
  decide

/-- Claim C8, amended: the status callback for a Confirmed send fires
at most once on the ack and timeout paths, but the link-level Fail path
is not guarded: when the confirmation timeout fires `Fail` (erasing the
pending entry) before the link-level `Fail` for the same send is
reconciled, onMessageSent fires the status callback a second time even
though no pending confirmation matches, so the same (id, dst) send
produces two `Fail` callbacks. -/
theorem C8_amended_timeout_then_link_fail_fires_twice
    (em : EnqueuedMessage) (restQ : List EnqueuedMessage)
    (seen : List SeenMessageEntry) (id : Nat) (dst : Addr) (diff : Nat)
    (hc : em.type = EnqueuedMessageType.Confirmed)
    (h1 : 1000 ≤ diff) (h2 : diff ≤ 33768) :
    (checkForConfirmationTimeout true diff [⟨true, 1000, id, dst⟩]).2 =
      [ESPNowSentStatus.Fail] ∧
    (checkForConfirmationTimeout true diff [⟨true, 1000, id, dst⟩]).1 = [] ∧
    (onMessageSent true ESPNowSentStatus.Fail
        ⟨em :: restQ, [], seen, true⟩).2 = [ESPNowSentStatus.Fail] := by
  have hts : toInt16 ((1000 : Int) - (diff : Int)) ≤ 0 := by
    unfold toInt16
    omega
  refine ⟨?_, ?_, ?_⟩
  · simp [checkForConfirmationTimeout, hts]
  · simp [checkForConfirmationTimeout, hts]
  · simp [onMessageSent, erasePendingFor, hc]

/-- Witness for the amended claim C8 at the concrete direct send. -/
theorem C8_amended_timeout_then_link_fail_fires_twice_witness :
    ((⟨EnqueuedMessageType.Confirmed, 0, directConfirmedMsg⟩ :
        EnqueuedMessage).type = EnqueuedMessageType.Confirmed ∧
      1000 ≤ 1000 ∧ (1000 : Nat) ≤ 33768) ∧
    ((checkForConfirmationTimeout true 1000
        [⟨true, 1000, 5, receiverAddr⟩]).2 = [ESPNowSentStatus.Fail] ∧
      (checkForConfirmationTimeout true 1000
        [⟨true, 1000, 5, receiverAddr⟩]).1 = [] ∧
      (onMessageSent true ESPNowSentStatus.Fail
        ⟨[⟨EnqueuedMessageType.Confirmed, 0, directConfirmedMsg⟩], [], [],
          true⟩).2 = [ESPNowSentStatus.Fail]) :=
  ⟨by decide,
    C8_amended_timeout_then_link_fail_fires_twice
      ⟨EnqueuedMessageType.Confirmed, 0, directConfirmedMsg⟩ [] [] 5
      receiverAddr 1000 (by decide) (by decide) (by decide)⟩

/-- A device in its initial state: empty queue, nothing pending,
nothing seen. -/
def emptyDeviceState : DeviceState := ⟨[], [], [], false⟩

/-- Claim C7, counterexample: the receiver (local address
`receiverAddr`) receives the same Confirmed frame twice within the
seen TTL. After both receptions its outbound queue holds exactly one
Acknowledgement frame, not the two the claim states: the second copy is
dropped by the seen-set before the acknowledgement is synthesized. -/
theorem C7_second_copy_not_acked :
    (handleOwnMessage receiverAddr true true directConfirmedMsg
        (handleOwnMessage receiverAddr true true directConfirmedMsg
          emptyDeviceState).1).1.mMessageQueue.length = 1 ∧
    (handleOwnMessage receiverAddr true true directConfirmedMsg
        (handleOwnMessage receiverAddr true true directConfirmedMsg
          emptyDeviceState).1).1.mMessageQueue.length ≠ 2 := by
  constructor
  · decide
  · decide

/-- Claim C7, amended: when the same Confirmed frame (same id,
src_addr, dst_addr) reaches its destination twice within the seen TTL,
the receiver's message callback fires exactly once and exactly ONE
Acknowledgement frame is enqueued (the second copy is dropped by the
seen-set before acknowledgement); the sender's status callback fires
exactly once with `SendSuccess` on that first (and only) ack, and a
further identical ack would fire nothing. -/
theorem C7_amended_duplicate_suppression (id : Nat) (src dst : Addr)
    (len : Nat) (data : List Nat) :
    (handleOwnMessage dst true true ⟨(0, 0), 1, id, 3, src, dst, len, data⟩
        emptyDeviceState).2.messageCallbacks = [⟨1, src, data, len⟩] ∧
    (handleOwnMessage dst true true ⟨(0, 0), 1, id, 3, src, dst, len, data⟩
        emptyDeviceState).1.mMessageQueue =
      [⟨EnqueuedMessageType.Acknowledgement, 0,
        ⟨(0, 0), 3, id, 3, dst, src, 0, []⟩⟩] ∧
    handleOwnMessage dst true true ⟨(0, 0), 1, id, 3, src, dst, len, data⟩
        (handleOwnMessage dst true true
          ⟨(0, 0), 1, id, 3, src, dst, len, data⟩ emptyDeviceState).1 =
      ((handleOwnMessage dst true true
          ⟨(0, 0), 1, id, 3, src, dst, len, data⟩ emptyDeviceState).1,
        ⟨[], false, []⟩) ∧
    processReceivedAcknowledgement true ⟨(0, 0), 3, id, 3, dst, src, 0, []⟩
        [⟨true, 1000, id, dst⟩] = ([], [ESPNowSentStatus.SendSuccess]) ∧
    processReceivedAcknowledgement true ⟨(0, 0), 3, id, 3, dst, src, 0, []⟩
        [] = ([], []) := by
  have hstep1 : handleOwnMessage dst true true
      ⟨(0, 0), 1, id, 3, src, dst, len, data⟩ emptyDeviceState =
      (⟨[⟨EnqueuedMessageType.Acknowledgement, 0,
          ⟨(0, 0), 3, id, 3, dst, src, 0, []⟩⟩], [],
        [⟨id, src, dst, mSeenMessagesCleanupTimeout,
          EnqueuedMessageType.Confirmed⟩], false⟩,
        ⟨[⟨1, src, data, len⟩], false, []⟩) := by
    simp [handleOwnMessage, emptyDeviceState, isMessageAlreadySeen,
      rememberMessage, sendAcknowledgement, messageSeenType,
      mMaxSeenMessagesQueueSize]
  refine ⟨?_, ?_, ?_, ?_, ?_⟩
  · rw [hstep1]
  · rw [hstep1]
  · rw [hstep1]
    simp [handleOwnMessage, isMessageAlreadySeen, isAddressMatching,
      messageSeenType, mSeenMessagesCleanupTimeout]
  · simp [processReceivedAcknowledgement, isAddressMatching]
  · simp [processReceivedAcknowledgement]

/-- Claim C9: in handleOwnMessage, a not-yet-seen frame whose type is
outside {0, 1, 3} reaches the default dispatch branch, which invokes
the message callback without the null guard: with no callback
registered, the null std::function is invoked; a type-0 or type-1 frame
in the same situation is simply not delivered (guarded), and is
delivered when a callback is registered. -/
theorem C9_default_branch_invokes_null_callback (localAddress : Addr)
    (statusCbSet : Bool) (message : Message) (s : DeviceState)
    (hseen : isMessageAlreadySeen s.mSeenMessages message = false) :
    (message.type ≠ 0 → message.type ≠ 1 → message.type ≠ 3 →
      (handleOwnMessage localAddress false statusCbSet message
        s).2.nullCallbackInvoked = true) ∧
    (message.type = 0 ∨ message.type = 1 →
      (handleOwnMessage localAddress false statusCbSet message
          s).2.nullCallbackInvoked = false ∧
        (handleOwnMessage localAddress false statusCbSet message
          s).2.messageCallbacks = []) ∧
    (message.type = 0 ∨ message.type = 1 →
      (handleOwnMessage localAddress true statusCbSet message
        s).2.messageCallbacks =
        [⟨message.type, message.srcAddress, message.data, message.len⟩]) := by
  refine ⟨?_, ?_, ?_⟩
  · intro h0 h1 h3
    simp [handleOwnMessage, hseen, h0, h1, h3]
  · rintro (h | h) <;> simp [handleOwnMessage, hseen, h]
  · rintro (h | h) <;> simp [handleOwnMessage, hseen, h]

/-- A not-yet-seen frame with the reserved type byte 2, addressed to
the receiver. -/
def reservedTypeMsg : Message :=
  ⟨(0, 0), 2, 9, 3, senderAddr, receiverAddr, 0, []⟩

/-- Witness for claim C9: the reserved-type frame on a fresh device
with no message callback registered invokes the null std::function. -/
theorem C9_default_branch_invokes_null_callback_witness :
    (isMessageAlreadySeen emptyDeviceState.mSeenMessages reservedTypeMsg =
        false ∧
      reservedTypeMsg.type ≠ 0 ∧ reservedTypeMsg.type ≠ 1 ∧
      reservedTypeMsg.type ≠ 3) ∧
    (handleOwnMessage receiverAddr false true reservedTypeMsg
      emptyDeviceState).2.nullCallbackInvoked = true :=
  ⟨by decide,
    (C9_default_branch_invokes_null_callback receiverAddr true
        reservedTypeMsg emptyDeviceState (by decide)).1
      (by decide) (by decide) (by decide)⟩

/-- A client state holding a staged broadcast frame whose terminal
status is `Fail` (driver error, or PartialFail with no tries left). -/
def broadcastFailClientState : ClientState :=
  ⟨true, true, ESPNowSentStatus.Fail,
    some ⟨BROADCAST_ADDRESS, [1], 1, 0, 0⟩, true⟩

/-- Claim C5, counterexample: a terminal `Fail` for a frame staged to
the broadcast address is delivered to the sent-callback as
`SendBroadcast`, not as `Fail` — the remap in ESPNowClient::update is
applied to both terminal outcomes, contradicting the claim that a
terminal Fail is delivered as Fail for every destination. -/
theorem C5_terminal_fail_to_broadcast_remapped :
    (ESPNowClient.processSentUpdate broadcastFailClientState).2 =
      [ESPNowSentStatus.SendBroadcast] ∧
    ESPNowSentStatus.Fail ∉
      (ESPNowClient.processSentUpdate broadcastFailClientState).2 := by
  constructor
  · decide
  · decide

/-- Claim C5, amended: with the sent-callback registered, the remap to
the `SendBroadcast` outcome occurs exactly when the terminal link
outcome (Success, or Fail — including a PartialFail promoted to Fail
when no tries are left) is for the broadcast destination; a terminal
Fail is delivered as Fail only for non-broadcast destinations. -/
theorem C5_amended_remap_on_any_terminal_broadcast (s : ClientState)
    (d : SendingData)
    (h1 : s.DATA_SENT_UPDATE_MUTEX = true)
    (h2 : s.mNextDataToSend = some d)
    (h3 : s.sentCallbackSet = true)
    (h4 : ESPNowClient.terminalStatus s.LAST_SENT_STATUS d =
        ESPNowSentStatus.Fail ∨
      ESPNowClient.terminalStatus s.LAST_SENT_STATUS d =
        ESPNowSentStatus.SendSuccess) :
    (ESPNowClient.processSentUpdate s).2 =
      [if isAddressMatching d.destAddress BROADCAST_ADDRESS then
          ESPNowSentStatus.SendBroadcast
        else ESPNowClient.terminalStatus s.LAST_SENT_STATUS d] := by
  simp [ESPNowClient.processSentUpdate, h1, h2, h3, h4]

/-- A client state holding a staged non-broadcast frame whose last
driver status is `PartialFail` with no tries left. -/
def unicastPartialFailClientState : ClientState :=
  ⟨true, true, ESPNowSentStatus.PartialFail,
    some ⟨receiverAddr, [1], 1, 0, 0⟩, true⟩

/-- Witness for the amended claim C5: a PartialFail with no tries left
for a non-broadcast destination is promoted to a terminal Fail and
delivered as `Fail`. -/
theorem C5_amended_remap_on_any_terminal_broadcast_witness :
    (unicastPartialFailClientState.DATA_SENT_UPDATE_MUTEX = true ∧
      unicastPartialFailClientState.mNextDataToSend =
        some ⟨receiverAddr, [1], 1, 0, 0⟩ ∧
      unicastPartialFailClientState.sentCallbackSet = true ∧
      ESPNowClient.terminalStatus
        unicastPartialFailClientState.LAST_SENT_STATUS
        ⟨receiverAddr, [1], 1, 0, 0⟩ = ESPNowSentStatus.Fail) ∧
    (ESPNowClient.processSentUpdate unicastPartialFailClientState).2 =
      [if isAddressMatching receiverAddr BROADCAST_ADDRESS then
          ESPNowSentStatus.SendBroadcast
        else ESPNowClient.terminalStatus
          unicastPartialFailClientState.LAST_SENT_STATUS
          ⟨receiverAddr, [1], 1, 0, 0⟩] :=
  ⟨by decide,
    C5_amended_remap_on_any_terminal_broadcast unicastPartialFailClientState
      ⟨receiverAddr, [1], 1, 0, 0⟩ (by decide) (by decide) (by decide)
      (Or.inl (by decide))⟩

/-- A frame received with hop count 0 (representable in the 8-bit
field; the spec's wire invariant `hop_count >= 1` is not enforced by
any validation in the source, which checks only the 18-byte minimum
length). -/
def hopZeroMsg : Message :=
  ⟨(0, 0), 0, 9, 0, senderAddr, receiverAddr, 1, [3]⟩

/-- Claim C6, counterexample: a received frame with hop_count 0 is NOT
dropped (the TTL guard `hop_count - 1 == 0` is evaluated after integer
promotion, so it compares -1 with 0) and is forwarded with hop_count
255 — which is not strictly less than the received hop_count 0. -/
theorem C6_hop_zero_forwarded_with_255 :
    (forwardMessage emptyDeviceState hopZeroMsg).mMessageQueue =
      [⟨EnqueuedMessageType.Forwarded, 0,
        ⟨(0, 0), 0, 9, 255, senderAddr, receiverAddr, 1, [3]⟩⟩] ∧
    ¬(255 < hopZeroMsg.hopCount) := by
  constructor
  · decide
  · decide

/-- Claim C6, amended: for every received hop_count in 1..255, every
frame that forwarding adds to the outbound queue carries a hop_count
strictly less than the received one, and no frame is emitted at
hop_count 1; the received value 0 must be excluded, since it is
forwarded with hop_count 255. -/
theorem C6_amended_forward_hop_strictly_decreases (s : DeviceState)
    (m : Message) (h1 : 1 ≤ m.hopCount) (h2 : m.hopCount ≤ 255) :
    (m.hopCount = 1 → forwardMessage s m = s) ∧
    ∀ em ∈ (forwardMessage s m).mMessageQueue,
      em ∈ s.mMessageQueue ∨ em.message.hopCount < m.hopCount := by
  constructor
  · intro h
    simp [forwardMessage, h]
  · intro em hem
    by_cases hg : (m.hopCount : Int) - 1 = 0
    · unfold forwardMessage at hem
      rw [if_pos hg] at hem
      exact Or.inl hem
    · unfold forwardMessage at hem
      rw [if_neg hg] at hem
      by_cases hseen : isMessageAlreadySeen s.mSeenMessages m = true
      · rw [if_pos hseen] at hem
        exact Or.inl hem
      · rw [if_neg hseen] at hem
        simp only [List.mem_append, List.mem_singleton] at hem
        rcases hem with h | h
        · exact Or.inl h
        · right
          subst h
          show (m.hopCount + 255) % 256 < m.hopCount
          omega

/-- Witness for the amended claim C6 at a frame with hop count 3. -/
theorem C6_amended_forward_hop_strictly_decreases_witness :
    (1 ≤ directConfirmedMsg.hopCount ∧ directConfirmedMsg.hopCount ≤ 255) ∧
    ((directConfirmedMsg.hopCount = 1 →
        forwardMessage emptyDeviceState directConfirmedMsg =
          emptyDeviceState) ∧
      ∀ em ∈ (forwardMessage emptyDeviceState
          directConfirmedMsg).mMessageQueue,
        em ∈ emptyDeviceState.mMessageQueue ∨
          em.message.hopCount < directConfirmedMsg.hopCount) :=
  ⟨by decide,
    C6_amended_forward_hop_strictly_decreases emptyDeviceState
      directConfirmedMsg (by decide) (by decide)⟩

/-- Claim C10: ESPNowClient::send returns Busy (-1) exactly when
`WAITING_FOR_DATA_SENT_MUTEX` is set (a transmitted frame awaiting its
sent-status); in the staged-but-untransmitted state (a frame staged,
waiting flag clear) send returns 0 and silently overwrites the staged
frame, and sendingPossible() reports true. -/
theorem C10_send_overwrites_staged (s : ClientState) (d : SendingData)
    (macAddress : Addr) (data : List Nat) (dataLength maxSendTries : Nat)
    (channel : Int)
    (hw : s.WAITING_FOR_DATA_SENT_MUTEX = false)
    (_hst : s.mNextDataToSend = some d) :
    (ESPNowClient.send s macAddress data dataLength maxSendTries
        channel).2 = 0 ∧
    (ESPNowClient.send s macAddress data dataLength maxSendTries
        channel).1.mNextDataToSend =
      some ⟨macAddress, data, dataLength, maxSendTries, channel⟩ ∧
    ESPNowClient.sendingPossible s = true ∧
    ∀ s' : ClientState,
      (ESPNowClient.send s' macAddress data dataLength maxSendTries
          channel).2 = -1 ↔
        s'.WAITING_FOR_DATA_SENT_MUTEX = true := by
  refine ⟨?_, ?_, ?_, ?_⟩
  · simp [ESPNowClient.send, hw]
  · simp [ESPNowClient.send, hw]
  · simp [ESPNowClient.sendingPossible, hw]
  · intro s'
    by_cases h : s'.WAITING_FOR_DATA_SENT_MUTEX = true
    · simp [ESPNowClient.send, h]
    · simp [ESPNowClient.send, h]

/-- A client state with a staged frame that has not been transmitted
yet: the waiting flag is clear. -/
def stagedClientState : ClientState :=
  ⟨false, false, ESPNowSentStatus.Undetermined,
    some ⟨receiverAddr, [1], 1, 2, 0⟩, true⟩

/-- Witness for claim C10 at the concrete staged client state. -/
theorem C10_send_overwrites_staged_witness :
    (stagedClientState.WAITING_FOR_DATA_SENT_MUTEX = false ∧
      stagedClientState.mNextDataToSend = some ⟨receiverAddr, [1], 1, 2, 0⟩) ∧
    ((ESPNowClient.send stagedClientState senderAddr [2] 1 2 0).2 = 0 ∧
      (ESPNowClient.send stagedClientState senderAddr [2] 1 2
          0).1.mNextDataToSend = some ⟨senderAddr, [2], 1, 2, 0⟩ ∧
      ESPNowClient.sendingPossible stagedClientState = true ∧
      ∀ s' : ClientState,
        (ESPNowClient.send s' senderAddr [2] 1 2 0).2 = -1 ↔
          s'.WAITING_FOR_DATA_SENT_MUTEX = true) :=
  ⟨by decide,
    C10_send_overwrites_staged stagedClientState ⟨receiverAddr, [1], 1, 2, 0⟩
      senderAddr [2] 1 2 0 (by decide) (by decide)⟩

end QuackMesh
